import Mathlib

/-!
Shallow embedding of the `ray-tracing-in-vulkano` bootstrap layer.

The repository consists of `src/main.rs` (options, user settings, entry
point), `src/raytracer.rs` (`RayTracer`), and `src/vulkan/{mod,window,
application}.rs` (`WindowConfig`, `Window`, `Application`).  Calls into the
external `vulkano` / `winit` / `image` libraries are modelled by an
environment record (`VulkanEnv`) whose fields give the outcome of each
external call; the repository's own control flow is translated statement by
statement.  Machine integers (`u32`, `usize`) are modelled as `Nat` (no
arithmetic that could overflow occurs in the embedded code), and `f32`
values by `F32`, a model of IEEE-754 comparison semantics (NaN compares
unequal to everything, signed zeros compare equal); the embedded code only
ever compares `f32` values, it never computes with them.
-/

namespace RTVk

/-! ### A model of `f32` as used by this code (comparisons only) -/

/-- Model of a Rust `f32` value: NaN, a signed infinity, or a finite value
given by a sign bit and a nonnegative magnitude.  The embedded code never
performs float arithmetic, only `==`/`!=`/`<` comparisons and literals. -/
inductive F32 where
  | nan
  | inf (neg : Bool)
  | finite (neg : Bool) (mag : ℚ)
deriving DecidableEq, Repr

/-- IEEE-754 equality (`==` on `f32`): NaN is unequal to everything
(itself included); `+0.0 == -0.0`. -/
def F32.beq : F32 → F32 → Bool
  | .nan, _ => false
  | _, .nan => false
  | .inf a, .inf b => a == b
  | .inf _, .finite _ _ => false
  | .finite _ _, .inf _ => false
  | .finite s1 m1, .finite s2 m2 => m1 == m2 && (m1 == 0 || s1 == s2)

/-- IEEE-754 inequality (`!=` on `f32`). -/
def F32.ne (a b : F32) : Bool := !(F32.beq a b)

/-- Signed extended value of a non-NaN `F32`, for ordering. -/
def F32.signedMag : F32 → ℚ
  | .nan => 0
  | .inf _ => 0
  | .finite s m => if s then -m else m

/-- IEEE-754 `<` on `f32`: false whenever either side is NaN. -/
def F32.lt : F32 → F32 → Bool
  | .nan, _ => false
  | _, .nan => false
  | .inf a, .inf b => a && !b
  | .inf a, .finite _ _ => a
  | .finite _ _, .inf b => !b
  | .finite s1 m1, .finite s2 m2 =>
      decide (F32.signedMag (.finite s1 m1) < F32.signedMag (.finite s2 m2))

/-- The `f32` literal `0.0`. -/
def F32.zero : F32 := .finite false 0

/-! ### `src/main.rs`: `Options`, `UserSettings` -/

/-- Struct `Options` from `src/main.rs`. -/
structure Options where
  benchmark : Bool
  benchmark_next_scenes : Bool
  benchmark_max_time : Nat
  samples : Nat
  bounces : Nat
  max_samples : Nat
  scene_index : Nat
  visible_devices : Option (List Nat)
  width : Nat
  height : Nat
  present_mode : Nat
  fullscreen : Bool
deriving Repr

/-- Impl `Default for Options` from `src/main.rs`. -/
def Options.default : Options where
  benchmark := false
  benchmark_next_scenes := false
  benchmark_max_time := 60
  samples := 8
  bounces := 16
  max_samples := 65536
  scene_index := 1
  visible_devices := none
  width := 1280
  height := 720
  present_mode := 2
  fullscreen := false

/-- Struct `UserSettings` from `src/main.rs`. -/
structure UserSettings where
  benchmark : Bool
  benchmark_next_scenes : Bool
  benchmark_max_time : Nat
  scene_index : Nat
  is_ray_traced : Bool
  accumulate_rays : Bool
  number_of_samples : Nat
  number_of_bounces : Nat
  max_number_of_samples : Nat
  field_of_view : F32
  aperture : F32
  focus_distance : F32
  show_heatmap : Bool
  heatmap_scale : F32
  show_settings : Bool
  show_overlay : Bool
deriving Repr

/-- Constant `UserSettings::FOV_MIN` (`10.0`). -/
def UserSettings.FOV_MIN : F32 := .finite false 10

/-- Constant `UserSettings::FOV_MAX` (`90.0`). -/
def UserSettings.FOV_MAX : F32 := .finite false 90

/-- Method `UserSettings::requires_accumulation_reset` from `src/main.rs`:
`self` differs from `prev` on one of the six listed fields, with `!=` on
the `f32` fields being IEEE inequality. -/
def UserSettings.requires_accumulation_reset (self prev : UserSettings) : Bool :=
  self.is_ray_traced != prev.is_ray_traced
    || self.accumulate_rays != prev.accumulate_rays
    || self.number_of_bounces != prev.number_of_bounces
    || F32.ne self.field_of_view prev.field_of_view
    || F32.ne self.aperture prev.aperture
    || F32.ne self.focus_distance prev.focus_distance

/-- Impl `From<&Options> for UserSettings` from `src/main.rs`. -/
def UserSettings.fromOptions (opts : Options) : UserSettings where
  benchmark := opts.benchmark
  benchmark_next_scenes := opts.benchmark_next_scenes
  benchmark_max_time := opts.benchmark_max_time
  scene_index := opts.scene_index
  is_ray_traced := true
  accumulate_rays := true
  number_of_samples := opts.samples
  number_of_bounces := opts.bounces
  max_number_of_samples := opts.max_samples
  field_of_view := F32.zero
  aperture := F32.zero
  focus_distance := F32.zero
  show_heatmap := false
  heatmap_scale := .finite false (3 / 2)
  show_settings := !opts.benchmark
  show_overlay := true

/-! ### `vulkano` / `winit` types used by the code -/

/-- Enum `vulkano::swapchain::PresentMode` (the four variants the code names). -/
inductive PresentMode where
  | Immediate
  | Mailbox
  | Fifo
  | FifoRelaxed
deriving DecidableEq, Repr

/-- The `match options.present_mode { ... }` expression in `main`
(src/main.rs): `none` models the `_ => panic!()` arm. -/
def mainPresentMode (present_mode : Nat) : Option PresentMode :=
  match present_mode with
  | 0 => some .Immediate
  | 1 => some .Mailbox
  | 2 => some .Fifo
  | 3 => some .FifoRelaxed
  | _ => none

/-! ### `src/vulkan/mod.rs` and `src/vulkan/window.rs` -/

/-- Struct `WindowConfig` from `src/vulkan/mod.rs`. -/
structure WindowConfig where
  title : String
  width : Nat
  height : Nat
  cursor_disabled : Bool
  fullscreen : Bool
  resizable : Bool
deriving DecidableEq, Repr

/-- Opaque handle for a `winit::window::Window` produced by the window
builder (external library object). -/
structure WinitWindow where
  id : Nat
deriving DecidableEq, Repr

/-- Struct `Window` from `src/vulkan/window.rs`. -/
structure Window where
  config : WindowConfig
  window : WinitWindow
deriving DecidableEq, Repr

/-! ### External `vulkano`/`winit` object and error models -/

/-- Opaque handle for `vulkano::VulkanLibrary`. -/
structure VulkanLibrary where
  id : Nat
deriving DecidableEq, Repr

/-- Opaque handle for `vulkano::instance::Instance`. -/
structure Instance where
  id : Nat
deriving DecidableEq, Repr

/-- Opaque handle for `winit::event_loop::EventLoop<()>`. -/
structure EventLoop where
  id : Nat
deriving DecidableEq, Repr

/-- Opaque handle for `vulkano::swapchain::Surface`. -/
structure Surface where
  id : Nat
deriving DecidableEq, Repr

/-- Opaque handle for a window icon (`winit::window::Icon`), the result of
decoding the embedded PNG asset. -/
structure Icon where
  id : Nat
deriving DecidableEq, Repr

/-- Opaque handle for a `vulkano` queue. -/
structure Queue where
  id : Nat
deriving DecidableEq, Repr

/-- Opaque payloads of the external library error types wrapped by
`ApplicationCreationError`. -/
structure LoadingError where
  code : Nat
deriving DecidableEq, Repr

/-- Payload of `vulkano::instance::InstanceCreationError`. -/
structure InstanceCreationError where
  code : Nat
deriving DecidableEq, Repr

/-- Payload of `winit::error::OsError`. -/
structure OsError where
  code : Nat
deriving DecidableEq, Repr

/-- Payload of `vulkano::swapchain::SurfaceCreationError`. -/
structure SurfaceCreationError where
  code : Nat
deriving DecidableEq, Repr

/-- Payload of `vulkano::VulkanError`. -/
structure VulkanError where
  code : Nat
deriving DecidableEq, Repr

/-- Payload of `vulkano::device::DeviceCreationError`. -/
structure DeviceCreationError where
  code : Nat
deriving DecidableEq, Repr

/-- Payload of `vulkano::device::physical::PhysicalDeviceError`. -/
structure PhysicalDeviceError where
  code : Nat
deriving DecidableEq, Repr

/-- Payload of `vulkano::swapchain::SwapchainCreationError`. -/
structure SwapchainCreationError where
  code : Nat
deriving DecidableEq, Repr

/-- Model of a `winit` video mode: size, bit depth and refresh rate.  Its ordering
instance is modelled as the lexicographic order on
(width, height, refresh rate, bit depth). -/
structure VideoMode where
  width : Nat
  height : Nat
  bit_depth : Nat
  refresh_rate_millihertz : Nat
deriving DecidableEq, Repr

/-- The modelled `Ord` on video modes (strict part). -/
def VideoMode.lt (a b : VideoMode) : Bool :=
  a.width < b.width
    || (a.width == b.width
        && (a.height < b.height
            || (a.height == b.height
                && (a.refresh_rate_millihertz < b.refresh_rate_millihertz
                    || (a.refresh_rate_millihertz == b.refresh_rate_millihertz
                        && a.bit_depth < b.bit_depth)))))

/-- Model of a `winit` monitor handle: the code only uses its video modes. -/
structure Monitor where
  video_modes : List VideoMode
deriving DecidableEq, Repr

/-- Enum `winit::window::Fullscreen`. -/
inductive Fullscreen where
  | Exclusive (vm : VideoMode)
  | Borderless (m : Option Monitor)
deriving DecidableEq, Repr

/-- Struct `vulkano::device::DeviceExtensions`, restricted to the four extensions
this code ever sets or tests. -/
structure DeviceExtensions where
  khr_swapchain : Bool
  khr_ray_tracing_pipeline : Bool
  khr_acceleration_structure : Bool
  khr_deferred_host_operations : Bool
deriving DecidableEq, Repr

/-- Method `DeviceExtensions::contains`: every extension enabled in `req` is also
enabled in `sup`. -/
def DeviceExtensions.contains (sup req : DeviceExtensions) : Bool :=
  (!req.khr_swapchain || sup.khr_swapchain)
    && (!req.khr_ray_tracing_pipeline || sup.khr_ray_tracing_pipeline)
    && (!req.khr_acceleration_structure || sup.khr_acceleration_structure)
    && (!req.khr_deferred_host_operations || sup.khr_deferred_host_operations)

/-- The `device_extensions` value built in `Application::new`
(src/vulkan/application.rs lines 118-124). -/
def requiredDeviceExtensions : DeviceExtensions where
  khr_swapchain := true
  khr_ray_tracing_pipeline := true
  khr_acceleration_structure := true
  khr_deferred_host_operations := true

/-- Struct `vulkano::device::QueueFlags`, restricted to the flag bits relevant to
intersection tests in this code. -/
structure QueueFlags where
  graphics : Bool
  compute : Bool
  transfer : Bool
  sparse_binding : Bool
deriving DecidableEq, Repr

/-- The `QueueFlags::GRAPHICS` constant: only the graphics bit set. -/
def QueueFlags.GRAPHICS : QueueFlags where
  graphics := true
  compute := false
  transfer := false
  sparse_binding := false

/-- Method `QueueFlags::intersects`: some flag bit is set in both operands. -/
def QueueFlags.intersects (a b : QueueFlags) : Bool :=
  (a.graphics && b.graphics)
    || (a.compute && b.compute)
    || (a.transfer && b.transfer)
    || (a.sparse_binding && b.sparse_binding)

/-- One entry of `PhysicalDevice::queue_family_properties`. -/
structure QueueFamilyProperties where
  queue_flags : QueueFlags
deriving DecidableEq, Repr

/-- Enum `vulkano::device::physical::PhysicalDeviceType` (`_ => 5` in the code
handles the non-exhaustive enum's other variants, modelled by `Unknown`). -/
inductive PhysicalDeviceType where
  | DiscreteGpu
  | IntegratedGpu
  | VirtualGpu
  | Cpu
  | Other
  | Unknown
deriving DecidableEq, Repr

/-- The ranking match in `Application::new`
(src/vulkan/application.rs lines 146-153). -/
def deviceRank : PhysicalDeviceType → Nat
  | .DiscreteGpu => 0
  | .IntegratedGpu => 1
  | .VirtualGpu => 2
  | .Cpu => 3
  | .Other => 4
  | .Unknown => 5

/-- Model of a `vulkano` physical device as seen by this code.
`surface_support i` gives the result of `surface_support(i, &surface)` for
the run's single surface (`none` models the `Err` case, which the code
collapses with `unwrap_or(false)`). -/
structure PhysicalDevice where
  supported_extensions : DeviceExtensions
  max_geometry_count : Option Nat
  device_id : Nat
  device_type : PhysicalDeviceType
  queue_family_properties : List QueueFamilyProperties
  surface_support : Nat → Option Bool

/-- Struct `vulkano::device::QueueCreateInfo` (the code only sets
`queue_family_index`). -/
structure QueueCreateInfo where
  queue_family_index : Nat
deriving DecidableEq, Repr

/-- The parts of `vulkano::device::DeviceCreateInfo` the code sets. -/
structure DeviceCreateInfo where
  enabled_extensions : DeviceExtensions
  queue_create_infos : List QueueCreateInfo
deriving DecidableEq, Repr

/-- Model of a `vulkano::device::Device`: the physical device it was opened
on and the creation parameters it stores. -/
structure Device where
  physical_device : PhysicalDevice
  enabled_extensions : DeviceExtensions
  queue_create_infos : List QueueCreateInfo

/-- Enum `vulkano::swapchain::CompositeAlpha`. -/
inductive CompositeAlpha where
  | Opaque
  | PreMultiplied
  | PostMultiplied
  | Inherit
deriving DecidableEq, Repr

/-- The parts of `vulkano::swapchain::SurfaceCapabilities` the code reads.
`supported_composite_alpha` is modelled as the sequence its flag-set
iterator yields (vulkano iterates set flags in declaration order), so
`into_iter().next()` is its head. -/
structure SurfaceCapabilities where
  min_image_count : Nat
  supported_composite_alpha : List CompositeAlpha
deriving DecidableEq, Repr

/-- Opaque handle for `vulkano::format::Format`. -/
structure Format where
  id : Nat
deriving DecidableEq, Repr

/-- Opaque handle for `vulkano::swapchain::ColorSpace`. -/
structure ColorSpace where
  id : Nat
deriving DecidableEq, Repr

/-- Struct `vulkano::image::ImageUsage`, restricted to the bit this code sets. -/
structure ImageUsage where
  color_attachment : Bool
deriving DecidableEq, Repr

/-- Constant `ImageUsage::COLOR_ATTACHMENT`. -/
def ImageUsage.COLOR_ATTACHMENT : ImageUsage where
  color_attachment := true

/-- The fields of `vulkano::swapchain::SwapchainCreateInfo` the code sets. -/
structure SwapchainCreateInfo where
  min_image_count : Nat
  image_format : Option Format
  image_extent : List Nat
  image_usage : ImageUsage
  composite_alpha : CompositeAlpha
  present_mode : PresentMode
deriving DecidableEq, Repr

/-- Model of a `vulkano::swapchain::Swapchain`: the device and surface it
was created for and the creation parameters it stores. -/
structure Swapchain where
  device : Device
  surface : Surface
  info : SwapchainCreateInfo

/-! ### `src/vulkan/application.rs`: errors, environment, `Application` -/

/-- Enum `ApplicationCreationError` from `src/vulkan/application.rs`. -/
inductive ApplicationCreationError where
  | NoPrimaryMonitorError
  | NoVideoModeError
  | NoPhysicalDevicesError
  | NoQueuesCreatedError
  | NoSupportedCompositeAlphasError
  | LoadingError (e : LoadingError)
  | InstanceCreationError (e : InstanceCreationError)
  | OsError (e : OsError)
  | SurfaceCreationError (e : SurfaceCreationError)
  | VulkanError (e : VulkanError)
  | DeviceCreationError (e : DeviceCreationError)
  | PhysicalDeviceError (e : PhysicalDeviceError)
  | SwapchainCreationError (e : SwapchainCreationError)
deriving DecidableEq, Repr

/-- Outcome of running `Application::new`: either a normal `Result` value
(`appError` wraps `Err`), or a Rust panic (`panicked` — the only panic site
is the `[0]` index into the surface-format vector when it is empty). -/
inductive NewError where
  | panicked
  | appError (e : ApplicationCreationError)
deriving DecidableEq, Repr

/-- Creation events recorded by the embedding, in the order the
corresponding external constructors are invoked by `Application::new`. -/
inductive Step where
  | createInstance
  | createWindow
  | createSurface
  | createDevice
  | createSwapchain
deriving DecidableEq, Repr

/-- The environment: outcome of every call `Application::new` makes into
the external `vulkano`/`winit`/`image` libraries. -/
structure VulkanEnv where
  load_library : Except LoadingError VulkanLibrary
  create_instance : Except InstanceCreationError Instance
  new_event_loop : EventLoop
  primary_monitor : Option Monitor
  icon : Option Icon
  build_window : Option Fullscreen → Except OsError WinitWindow
  create_surface : Except SurfaceCreationError Surface
  enumerate_physical_devices : Except VulkanError (List PhysicalDevice)
  create_device : PhysicalDevice → DeviceCreateInfo →
    Except DeviceCreationError (List Queue)
  surface_capabilities : PhysicalDevice →
    Except PhysicalDeviceError SurfaceCapabilities
  surface_formats : PhysicalDevice →
    Except PhysicalDeviceError (List (Format × ColorSpace))
  create_swapchain : SwapchainCreateInfo → Except SwapchainCreationError Unit

/-- Accumulator loop of `Iterator::max` on video modes: Rust keeps the
last of the equally-maximum elements, so the accumulator is replaced
unless the new element is strictly below it. -/
def rustMaxVideoModeAux (a : VideoMode) : List VideoMode → VideoMode
  | [] => a
  | x :: xs => rustMaxVideoModeAux (if VideoMode.lt x a then a else x) xs

/-- Model of `Iterator::max` on a list of video modes. -/
def rustMaxVideoMode : List VideoMode → Option VideoMode
  | [] => none
  | x :: xs => some (rustMaxVideoModeAux x xs)

/-- Accumulator loop of `Iterator::min_by_key`: Rust keeps the first of
the equally-minimum elements, so the accumulator is kept unless the new
element's key is strictly smaller. -/
def rustMinByKeyAux {α : Type} (key : α → Nat) (a : α) : List α → α
  | [] => a
  | x :: xs => rustMinByKeyAux key (if key x < key a then x else a) xs

/-- Model of `Iterator::min_by_key` on a list. -/
def rustMinByKey {α : Type} (key : α → Nat) : List α → Option α
  | [] => none
  | x :: xs => some (rustMinByKeyAux key x xs)

/-- Model of `Iterator::position` over `iter().enumerate()` starting at `i`:
first index at which the predicate (which also sees the index) holds. -/
def enumPosition {α : Type} (pred : Nat → α → Bool) : Nat → List α → Option Nat
  | _, [] => none
  | i, x :: xs => if pred i x then some i else enumPosition pred (i + 1) xs

/-- The first `.filter(|p| ...)` closure of the device selection
(src/vulkan/application.rs lines 129-135). -/
def eligibleFilter (visible_devices : Option (List Nat)) (p : PhysicalDevice) : Bool :=
  p.supported_extensions.contains requiredDeviceExtensions
    && (match p.max_geometry_count with
        | some c => 0 < c
        | none => false)
    && !(match visible_devices with
        | some v => !(v.contains p.device_id)
        | none => false)

/-- The `.position(|(i, q)| ...)` search of the device selection
(src/vulkan/application.rs lines 136-145): first queue family whose flags
intersect `GRAPHICS` and which supports the surface (`unwrap_or(false)`). -/
def findQueueFamily (p : PhysicalDevice) : Option Nat :=
  enumPosition
    (fun i q =>
      q.queue_flags.intersects QueueFlags.GRAPHICS
        && (p.surface_support i).getD false)
    0 p.queue_family_properties

/-- The full physical-device selection pipeline of `Application::new`
(src/vulkan/application.rs lines 126-154): filter, find a queue family,
minimise the device-type rank. -/
def selectPhysicalDevice (visible_devices : Option (List Nat))
    (devs : List PhysicalDevice) : Option (PhysicalDevice × Nat) :=
  rustMinByKey (fun pi => deviceRank pi.1.device_type)
    ((devs.filter (eligibleFilter visible_devices)).filterMap
      (fun p => (findQueueFamily p).map (fun i => (p, i))))

/-- The `fullscreen` computation of `Application::new`
(src/vulkan/application.rs lines 67-86): with `fullscreen` set, require a
primary monitor and the maximum video mode whose size equals the configured
window size; otherwise `None` without consulting the monitor. -/
def computeFullscreen (window_config : WindowConfig) (env : VulkanEnv) :
    Except ApplicationCreationError (Option Fullscreen) :=
  if window_config.fullscreen then
    match env.primary_monitor with
    | none => .error .NoPrimaryMonitorError
    | some m =>
      match rustMaxVideoMode
          (m.video_modes.filter
            (fun vm => vm.width == window_config.width
              && vm.height == window_config.height)) with
      | none => .error .NoVideoModeError
      | some vm => .ok (some (.Exclusive vm))
  else .ok none

/-- Struct `Application` from `src/vulkan/application.rs` (lines 25-43).  The
`// TODO` placeholder fields keep their source types (`Vec<usize>` /
`usize`). -/
structure Application where
  event_loop : EventLoop
  present_mode : PresentMode
  window : Window
  «instance» : Instance
  surface : Surface
  device : Device
  swapchain : Swapchain
  uniform_buffers : List Nat
  depth_buffer : Nat
  graphics_pipeline : Nat
  swapchain_frame_buffers : List Nat
  command_pool : Nat
  command_buffers : Nat
  image_available_semaphores : List Nat
  render_finished_semaphores : List Nat
  in_flight_fences : List Nat
  current_frame : Nat

/-- Function `Application::new` from `src/vulkan/application.rs` (lines 46-228),
statement by statement against the environment `env`.  The second
component records which external constructors ran, in order. -/
def Application.new (window_config : WindowConfig) (present_mode : PresentMode)
    (visible_devices : Option (List Nat)) (env : VulkanEnv) :
    Except NewError Application × List Step :=
  match env.load_library with
  | .error e => (.error (.appError (.LoadingError e)), [])
  | .ok _library =>
  match env.create_instance with
  | .error e => (.error (.appError (.InstanceCreationError e)), [])
  | .ok inst =>
  let el := env.new_event_loop
  match computeFullscreen window_config env with
  | .error e => (.error (.appError e), [.createInstance])
  | .ok fullscreen =>
  let _icon := env.icon
  match env.build_window fullscreen with
  | .error e => (.error (.appError (.OsError e)), [.createInstance])
  | .ok w =>
  match env.create_surface with
  | .error e => (.error (.appError (.SurfaceCreationError e)),
      [.createInstance, .createWindow])
  | .ok surface =>
  match env.enumerate_physical_devices with
  | .error e => (.error (.appError (.VulkanError e)),
      [.createInstance, .createWindow, .createSurface])
  | .ok devs =>
  match selectPhysicalDevice visible_devices devs with
  | none => (.error (.appError .NoPhysicalDevicesError),
      [.createInstance, .createWindow, .createSurface])
  | some (physical_device, queue_family_index) =>
  let device_create_info : DeviceCreateInfo :=
    { enabled_extensions := requiredDeviceExtensions
      queue_create_infos := [{ queue_family_index := queue_family_index }] }
  match env.create_device physical_device device_create_info with
  | .error e => (.error (.appError (.DeviceCreationError e)),
      [.createInstance, .createWindow, .createSurface])
  | .ok queues =>
  let device : Device :=
    { physical_device := physical_device
      enabled_extensions := requiredDeviceExtensions
      queue_create_infos := [{ queue_family_index := queue_family_index }] }
  match queues.head? with
  | none => (.error (.appError .NoQueuesCreatedError),
      [.createInstance, .createWindow, .createSurface, .createDevice])
  | some _queue =>
  match env.surface_capabilities device.physical_device with
  | .error e => (.error (.appError (.PhysicalDeviceError e)),
      [.createInstance, .createWindow, .createSurface, .createDevice])
  | .ok surface_capabilities =>
  match env.surface_formats device.physical_device with
  | .error e => (.error (.appError (.PhysicalDeviceError e)),
      [.createInstance, .createWindow, .createSurface, .createDevice])
  | .ok formats =>
  match formats with
  | [] => (.error .panicked,
      [.createInstance, .createWindow, .createSurface, .createDevice])
  | f0 :: _ =>
  match surface_capabilities.supported_composite_alpha.head? with
  | none => (.error (.appError .NoSupportedCompositeAlphasError),
      [.createInstance, .createWindow, .createSurface, .createDevice])
  | some composite_alpha =>
  let info : SwapchainCreateInfo :=
    { min_image_count := surface_capabilities.min_image_count
      image_format := some f0.1
      image_extent := [window_config.width, window_config.height]
      image_usage := ImageUsage.COLOR_ATTACHMENT
      composite_alpha := composite_alpha
      present_mode := present_mode }
  match env.create_swapchain info with
  | .error e => (.error (.appError (.SwapchainCreationError e)),
      [.createInstance, .createWindow, .createSurface, .createDevice])
  | .ok _ =>
  (.ok
    { event_loop := el
      present_mode := present_mode
      window := { config := window_config, window := w }
      «instance» := inst
      surface := surface
      device := device
      swapchain := { device := device, surface := surface, info := info }
      uniform_buffers := []
      depth_buffer := 0
      graphics_pipeline := 0
      swapchain_frame_buffers := []
      command_pool := 0
      command_buffers := 0
      image_available_semaphores := []
      render_finished_semaphores := []
      in_flight_fences := []
      current_frame := 0 },
    [.createInstance, .createWindow, .createSurface, .createDevice,
      .createSwapchain])

/-! ### `Application::run`'s event-loop closure -/

/-- Enum `winit::event::VirtualKeyCode`: `Escape` plus a code covering
every other key of the (large) enum. -/
inductive VirtualKeyCode where
  | Escape
  | OtherKey (code : Nat)
deriving DecidableEq, Repr

/-- Enum `winit::event::ElementState`. -/
inductive ElementState where
  | Pressed
  | Released
deriving DecidableEq, Repr

/-- The fields of `winit::event::KeyboardInput` (the closure only reads
`virtual_keycode`). -/
structure KeyboardInput where
  scancode : Nat
  state : ElementState
  virtual_keycode : Option VirtualKeyCode
deriving DecidableEq, Repr

/-- Enum `winit::event::WindowEvent`, restricted to the variants the closure
names; `OtherWindowEvent` covers all remaining variants. -/
inductive WindowEvent where
  | CloseRequested
  | KeyboardInput (input : KeyboardInput)
  | OtherWindowEvent (tag : Nat)
deriving DecidableEq, Repr

/-- Enum `winit::event::Event`, restricted to the shape the closure matches on;
`OtherEvent` covers all non-window events. -/
inductive Event where
  | WindowEvent (event : WindowEvent)
  | OtherEvent (tag : Nat)
deriving DecidableEq, Repr

/-- Enum `winit::event_loop::ControlFlow`. -/
inductive ControlFlow where
  | Poll
  | Wait
  | WaitUntil (t : Nat)
  | Exit
deriving DecidableEq, Repr

/-- The event-loop closure of `Application::run`
(src/vulkan/application.rs lines 230-249): given the incoming event and
the current `*control_flow`, the value of `*control_flow` after the
closure returns.  The closure's only effect is this assignment. -/
def Application.handleEvent (event : Event) (control_flow : ControlFlow) :
    ControlFlow :=
  match event with
  | .WindowEvent .CloseRequested => .Exit
  | .WindowEvent (.KeyboardInput input) =>
    match input.virtual_keycode with
    | some .Escape => .Exit
    | _ => control_flow
  | _ => control_flow

/-! ### `src/raytracer.rs` -/

/-- Struct `RayTracer` from `src/raytracer.rs`. -/
structure RayTracer where
  application : Application
  _user_settings : UserSettings

/-- Function `RayTracer::new` from `src/raytracer.rs` (lines 16-32): the `?` on
`Application::new` propagates its error unchanged; on success the struct
stores the application and the user settings.  The trace of external
constructor calls is passed through. -/
def RayTracer.new (user_settings : UserSettings) (window_config : WindowConfig)
    (present_mode : PresentMode) (visible_devices : Option (List Nat))
    (env : VulkanEnv) : Except NewError RayTracer × List Step :=
  match Application.new window_config present_mode visible_devices env with
  | (.error e, tr) => (.error e, tr)
  | (.ok app, tr) =>
    (.ok { application := app, _user_settings := user_settings }, tr)

/-! ### Spec-side predicates -/

/-- Eligibility of a physical device as the specification claim words it:
supports the four required extensions, reports `max_geometry_count`
strictly greater than 0, has its `device_id` contained in
`visible_devices` whenever that is `Some`, and has at least one queue
family whose flags include GRAPHICS and which supports the surface. -/
def eligibleSpec (visible_devices : Option (List Nat)) (p : PhysicalDevice) : Prop :=
  p.supported_extensions.khr_swapchain = true
    ∧ p.supported_extensions.khr_ray_tracing_pipeline = true
    ∧ p.supported_extensions.khr_acceleration_structure = true
    ∧ p.supported_extensions.khr_deferred_host_operations = true
    ∧ (∃ c, p.max_geometry_count = some c ∧ 0 < c)
    ∧ (∀ v, visible_devices = some v → p.device_id ∈ v)
    ∧ (∃ j q, p.queue_family_properties.get? j = some q
        ∧ q.queue_flags.graphics = true
        ∧ (p.surface_support j).getD false = true)

/-! ### Concrete fixtures (used to evaluate the embedding on closed runs) -/

/-- A physical device that passes every eligibility test. -/
def pdOk : PhysicalDevice where
  supported_extensions := requiredDeviceExtensions
  max_geometry_count := some 1
  device_id := 0
  device_type := .DiscreteGpu
  queue_family_properties :=
    [{ queue_flags :=
        { graphics := true, compute := false, transfer := false,
          sparse_binding := false } }]
  surface_support := fun _ => some true

/-- The window configuration `main` builds from default options. -/
def wcOk : WindowConfig where
  title := "Vulkan Window"
  width := 1280
  height := 720
  cursor_disabled := false
  fullscreen := false
  resizable := true

/-- The same configuration with exclusive fullscreen requested. -/
def wcFs : WindowConfig :=
  { wcOk with fullscreen := true, resizable := false }

/-- An environment in which every external call succeeds and `pdOk` is the
only physical device. -/
def envOk : VulkanEnv where
  load_library := .ok { id := 0 }
  create_instance := .ok { id := 0 }
  new_event_loop := { id := 0 }
  primary_monitor := none
  icon := none
  build_window := fun _ => .ok { id := 0 }
  create_surface := .ok { id := 0 }
  enumerate_physical_devices := .ok [pdOk]
  create_device := fun _ _ => .ok [{ id := 0 }]
  surface_capabilities := fun _ =>
    .ok { min_image_count := 2, supported_composite_alpha := [.Opaque] }
  surface_formats := fun _ => .ok [({ id := 7 }, { id := 0 })]
  create_swapchain := fun _ => .ok ()

/-- Environment `envOk` with a surface that supports no composite alpha. -/
def envNoAlpha : VulkanEnv :=
  { envOk with
    surface_capabilities := fun _ =>
      .ok { min_image_count := 2, supported_composite_alpha := [] } }

/-- The logical device `Application::new` opens in `envOk`. -/
def devOk : Device where
  physical_device := pdOk
  enabled_extensions := requiredDeviceExtensions
  queue_create_infos := [{ queue_family_index := 0 }]

/-- The swapchain parameters `Application::new` uses in `envOk`. -/
def scInfoOk : SwapchainCreateInfo where
  min_image_count := 2
  image_format := some { id := 7 }
  image_extent := [1280, 720]
  image_usage := ImageUsage.COLOR_ATTACHMENT
  composite_alpha := .Opaque
  present_mode := .Fifo

/-- The application value `Application::new wcOk .Fifo none envOk` returns. -/
def appOk : Application where
  event_loop := { id := 0 }
  present_mode := .Fifo
  window := { config := wcOk, window := { id := 0 } }
  «instance» := { id := 0 }
  surface := { id := 0 }
  device := devOk
  swapchain := { device := devOk, surface := { id := 0 }, info := scInfoOk }
  uniform_buffers := []
  depth_buffer := 0
  graphics_pipeline := 0
  swapchain_frame_buffers := []
  command_pool := 0
  command_buffers := 0
  image_available_semaphores := []
  render_finished_semaphores := []
  in_flight_fences := []
  current_frame := 0

/-- The user settings `main` derives from default options. -/
def usOk : UserSettings := UserSettings.fromOptions Options.default

/-- The full trace of a successful `Application::new` run. -/
def fullTrace : List Step :=
  [.createInstance, .createWindow, .createSurface, .createDevice,
    .createSwapchain]

/-! ### Helper lemmas about the iterator models -/

theorem VideoMode.lt_trans_neg {x a y : VideoMode}
    (h1 : VideoMode.lt x a = false) (h2 : VideoMode.lt a y = false) :
    VideoMode.lt x y = false := by
  simp only [VideoMode.lt, Bool.or_eq_false_iff, Bool.and_eq_false_iff,
    decide_eq_false_iff_not, beq_eq_false_iff_ne, ne_eq, beq_iff_eq,
    decide_eq_true_eq] at h1 h2 ⊢
  omega

theorem VideoMode.lt_of_lt_of_le {x a y : VideoMode}
    (h1 : VideoMode.lt x a = true) (h2 : VideoMode.lt y a = false) :
    VideoMode.lt y x = false := by
  simp only [VideoMode.lt, Bool.or_eq_false_iff, Bool.and_eq_false_iff,
    decide_eq_false_iff_not, beq_eq_false_iff_ne, ne_eq, beq_iff_eq,
    decide_eq_true_eq, Bool.or_eq_true, Bool.and_eq_true] at h1 h2 ⊢
  omega

theorem VideoMode.lt_irrefl (a : VideoMode) : VideoMode.lt a a = false := by
  simp [VideoMode.lt]

theorem rustMaxVideoModeAux_spec (l : List VideoMode) (a : VideoMode) :
    (rustMaxVideoModeAux a l = a ∨ rustMaxVideoModeAux a l ∈ l)
      ∧ VideoMode.lt (rustMaxVideoModeAux a l) a = false
      ∧ ∀ y ∈ l, VideoMode.lt (rustMaxVideoModeAux a l) y = false := by
  induction l generalizing a with
  | nil => exact ⟨Or.inl rfl, VideoMode.lt_irrefl a, by simp⟩
  | cons x xs ih =>
    simp only [rustMaxVideoModeAux]
    cases hxa : VideoMode.lt x a with
    | true =>
      obtain ⟨hmem, hacc, hall⟩ := ih a
      refine ⟨?_, hacc, ?_⟩
      · rcases hmem with h | h
        · exact Or.inl h
        · exact Or.inr (List.mem_cons_of_mem _ h)
      · intro y hy
        rcases List.mem_cons.mp hy with rfl | hy
        · exact VideoMode.lt_of_lt_of_le hxa hacc
        · exact hall y hy
    | false =>
      obtain ⟨hmem, hacc, hall⟩ := ih x
      refine ⟨?_, VideoMode.lt_trans_neg hacc hxa, ?_⟩
      · rcases hmem with h | h
        · exact Or.inr (by simp [h])
        · exact Or.inr (List.mem_cons_of_mem _ h)
      · intro y hy
        rcases List.mem_cons.mp hy with rfl | hy
        · exact hacc
        · exact hall y hy

theorem rustMaxVideoMode_eq_none {l : List VideoMode} :
    rustMaxVideoMode l = none ↔ l = [] := by
  cases l <;> simp [rustMaxVideoMode]

theorem rustMaxVideoMode_spec {l : List VideoMode} {m : VideoMode}
    (h : rustMaxVideoMode l = some m) :
    m ∈ l ∧ ∀ y ∈ l, VideoMode.lt m y = false := by
  cases l with
  | nil => simp [rustMaxVideoMode] at h
  | cons x xs =>
    simp only [rustMaxVideoMode, Option.some.injEq] at h
    subst h
    obtain ⟨hmem, hacc, hall⟩ := rustMaxVideoModeAux_spec xs x
    refine ⟨?_, ?_⟩
    · rcases hmem with h | h
      · simp [h]
      · exact List.mem_cons_of_mem _ h
    · intro y hy
      rcases List.mem_cons.mp hy with rfl | hy
      · exact hacc
      · exact hall y hy

theorem rustMinByKeyAux_spec {α : Type} (key : α → Nat) (l : List α) (a : α) :
    (rustMinByKeyAux key a l = a ∨ rustMinByKeyAux key a l ∈ l)
      ∧ key (rustMinByKeyAux key a l) ≤ key a
      ∧ ∀ y ∈ l, key (rustMinByKeyAux key a l) ≤ key y := by
  induction l generalizing a with
  | nil => exact ⟨Or.inl rfl, le_refl _, by simp⟩
  | cons x xs ih =>
    simp only [rustMinByKeyAux]
    cases hxa : decide (key x < key a) with
    | true =>
      simp only [of_decide_eq_true hxa, if_pos (of_decide_eq_true hxa)]
      obtain ⟨hmem, hacc, hall⟩ := ih x
      refine ⟨?_, le_of_lt (lt_of_le_of_lt hacc (of_decide_eq_true hxa)), ?_⟩
      · rcases hmem with h | h
        · exact Or.inr (by simp [h])
        · exact Or.inr (List.mem_cons_of_mem _ h)
      · intro y hy
        rcases List.mem_cons.mp hy with rfl | hy
        · exact hacc
        · exact hall y hy
    | false =>
      simp only [if_neg (of_decide_eq_false hxa)]
      obtain ⟨hmem, hacc, hall⟩ := ih a
      refine ⟨?_, hacc, ?_⟩
      · rcases hmem with h | h
        · exact Or.inl h
        · exact Or.inr (List.mem_cons_of_mem _ h)
      · intro y hy
        rcases List.mem_cons.mp hy with rfl | hy
        · exact le_trans hacc (le_of_not_lt (of_decide_eq_false hxa))
        · exact hall y hy

theorem rustMinByKey_eq_none {α : Type} {key : α → Nat} {l : List α} :
    rustMinByKey key l = none ↔ l = [] := by
  cases l <;> simp [rustMinByKey]

theorem rustMinByKey_spec {α : Type} {key : α → Nat} {l : List α} {m : α}
    (h : rustMinByKey key l = some m) :
    m ∈ l ∧ ∀ y ∈ l, key m ≤ key y := by
  cases l with
  | nil => simp [rustMinByKey] at h
  | cons x xs =>
    simp only [rustMinByKey, Option.some.injEq] at h
    subst h
    obtain ⟨hmem, hacc, hall⟩ := rustMinByKeyAux_spec key xs x
    refine ⟨?_, ?_⟩
    · rcases hmem with h | h
      · simp [h]
      · exact List.mem_cons_of_mem _ h
    · intro y hy
      rcases List.mem_cons.mp hy with rfl | hy
      · exact hacc
      · exact hall y hy

theorem enumPosition_isSome_iff {α : Type} (pred : Nat → α → Bool) :
    ∀ (l : List α) (i : Nat),
      (enumPosition pred i l).isSome = true
        ↔ ∃ j q, l.get? j = some q ∧ pred (i + j) q = true := by
  intro l
  induction l with
  | nil => intro i; simp [enumPosition]
  | cons x xs ih =>
    intro i
    simp only [enumPosition]
    split
    next hp =>
      simp only [Option.isSome_some, true_iff]
      exact ⟨0, x, rfl, by simpa using hp⟩
    next hp =>
      rw [ih (i + 1)]
      constructor
      · rintro ⟨j, q, hq, hpq⟩
        exact ⟨j + 1, q, by simpa using hq,
          by rwa [show i + (j + 1) = i + 1 + j by omega]⟩
      · rintro ⟨j, q, hq, hpq⟩
        cases j with
        | zero =>
          obtain rfl : x = q := by simpa using hq
          rw [Nat.add_zero] at hpq
          exact absurd hpq hp
        | succ j' =>
          refine ⟨j', q, by simpa using hq, ?_⟩
          rwa [show i + 1 + j' = i + (j' + 1) by omega]

/-! ### Characterising the device selection -/

theorem QueueFlags.intersects_GRAPHICS (q : QueueFlags) :
    q.intersects QueueFlags.GRAPHICS = q.graphics := by
  simp [QueueFlags.intersects, QueueFlags.GRAPHICS]

theorem findQueueFamily_isSome_iff (p : PhysicalDevice) :
    (findQueueFamily p).isSome = true
      ↔ ∃ j q, p.queue_family_properties.get? j = some q
          ∧ q.queue_flags.graphics = true
          ∧ (p.surface_support j).getD false = true := by
  unfold findQueueFamily
  rw [enumPosition_isSome_iff]
  constructor
  · rintro ⟨j, q, hq, hpq⟩
    rw [Nat.zero_add, Bool.and_eq_true, QueueFlags.intersects_GRAPHICS] at hpq
    exact ⟨j, q, hq, hpq.1, hpq.2⟩
  · rintro ⟨j, q, hq, hg, hs⟩
    exact ⟨j, q, hq, by rw [Nat.zero_add, Bool.and_eq_true,
      QueueFlags.intersects_GRAPHICS]; exact ⟨hg, hs⟩⟩

theorem eligibleFilter_eq_true_iff (visible_devices : Option (List Nat))
    (p : PhysicalDevice) :
    eligibleFilter visible_devices p = true
      ↔ p.supported_extensions.khr_swapchain = true
          ∧ p.supported_extensions.khr_ray_tracing_pipeline = true
          ∧ p.supported_extensions.khr_acceleration_structure = true
          ∧ p.supported_extensions.khr_deferred_host_operations = true
          ∧ (∃ c, p.max_geometry_count = some c ∧ 0 < c)
          ∧ (∀ v, visible_devices = some v → p.device_id ∈ v) := by
  unfold eligibleFilter DeviceExtensions.contains requiredDeviceExtensions
  cases hmg : p.max_geometry_count with
  | none =>
    cases visible_devices <;> simp
  | some c =>
    cases visible_devices with
    | none => simp; tauto
    | some v =>
      simp [List.elem_iff]
      tauto

/-- The combined effect of the two filters in the selection pipeline
matches the claim's eligibility predicate. -/
theorem eligible_iff (visible_devices : Option (List Nat)) (p : PhysicalDevice) :
    (eligibleFilter visible_devices p = true ∧ (findQueueFamily p).isSome = true)
      ↔ eligibleSpec visible_devices p := by
  rw [eligibleFilter_eq_true_iff, findQueueFamily_isSome_iff, eligibleSpec]
  tauto

theorem selectPhysicalDevice_eq_none_iff (visible_devices : Option (List Nat))
    (devs : List PhysicalDevice) :
    selectPhysicalDevice visible_devices devs = none
      ↔ ∀ p ∈ devs, ¬ eligibleSpec visible_devices p := by
  unfold selectPhysicalDevice
  rw [rustMinByKey_eq_none, List.filterMap_eq_nil_iff]
  constructor
  · intro h p hp hel
    obtain ⟨hf, hsome⟩ := (eligible_iff visible_devices p).mpr hel
    have := h p (List.mem_filter.mpr ⟨hp, hf⟩)
    rw [Option.map_eq_none'] at this
    rw [this] at hsome
    simp at hsome
  · intro h p hp
    obtain ⟨hmem, hf⟩ := List.mem_filter.mp hp
    rw [Option.map_eq_none']
    by_contra hne
    have hsome : (findQueueFamily p).isSome = true := by
      cases hq : findQueueFamily p
      · exact absurd hq hne
      · simp
    exact h p hmem ((eligible_iff visible_devices p).mp ⟨hf, hsome⟩)

theorem selectPhysicalDevice_spec {visible_devices : Option (List Nat)}
    {devs : List PhysicalDevice} {p : PhysicalDevice} {i : Nat}
    (h : selectPhysicalDevice visible_devices devs = some (p, i)) :
    p ∈ devs ∧ eligibleSpec visible_devices p
      ∧ findQueueFamily p = some i
      ∧ ∀ q ∈ devs, eligibleSpec visible_devices q →
          deviceRank p.device_type ≤ deviceRank q.device_type := by
  unfold selectPhysicalDevice at h
  obtain ⟨hmem, hmin⟩ := rustMinByKey_spec h
  rw [List.mem_filterMap] at hmem
  obtain ⟨p', hp', hmap⟩ := hmem
  obtain ⟨hpdev, hpf⟩ := List.mem_filter.mp hp'
  cases hq : findQueueFamily p' with
  | none => rw [hq] at hmap; simp at hmap
  | some j =>
    rw [hq] at hmap
    simp only [Option.map_some', Option.some.injEq, Prod.mk.injEq] at hmap
    obtain ⟨rfl, rfl⟩ := hmap
    refine ⟨hpdev, (eligible_iff visible_devices p').mp ⟨hpf, by rw [hq]; simp⟩,
      hq, ?_⟩
    intro q hqdev hqel
    obtain ⟨hqf, hqsome⟩ := (eligible_iff visible_devices q).mpr hqel
    cases hqq : findQueueFamily q with
    | none => rw [hqq] at hqsome; simp at hqsome
    | some jq =>
      have : (q, jq) ∈ (devs.filter (eligibleFilter visible_devices)).filterMap
          (fun p => (findQueueFamily p).map (fun i => (p, i))) := by
        rw [List.mem_filterMap]
        exact ⟨q, List.mem_filter.mpr ⟨hqdev, hqf⟩, by rw [hqq]; rfl⟩
      exact hmin (q, jq) this

/-! ### Lemmas about the fullscreen computation -/

theorem computeFullscreen_of_not_fullscreen {wc : WindowConfig} {env : VulkanEnv}
    (h : wc.fullscreen = false) : computeFullscreen wc env = .ok none := by
  simp [computeFullscreen, h]

theorem computeFullscreen_error_fullscreen {wc : WindowConfig} {env : VulkanEnv}
    {e : ApplicationCreationError} (h : computeFullscreen wc env = .error e) :
    wc.fullscreen = true := by
  cases hf : wc.fullscreen with
  | true => rfl
  | false => rw [computeFullscreen_of_not_fullscreen hf] at h; exact absurd h (by simp)

theorem computeFullscreen_no_monitor {wc : WindowConfig} {env : VulkanEnv}
    (hf : wc.fullscreen = true) (hm : env.primary_monitor = none) :
    computeFullscreen wc env = .error .NoPrimaryMonitorError := by
  simp [computeFullscreen, hf, hm]

theorem computeFullscreen_no_video_mode {wc : WindowConfig} {env : VulkanEnv}
    {m : Monitor} (hf : wc.fullscreen = true) (hm : env.primary_monitor = some m)
    (hvm : m.video_modes.filter
      (fun vm => vm.width == wc.width && vm.height == wc.height) = []) :
    computeFullscreen wc env = .error .NoVideoModeError := by
  simp [computeFullscreen, hf, hm, hvm, rustMaxVideoMode]

theorem computeFullscreen_ok_fullscreen {wc : WindowConfig} {env : VulkanEnv}
    {m : Monitor} {vm : VideoMode} (hf : wc.fullscreen = true)
    (hm : env.primary_monitor = some m)
    (h : computeFullscreen wc env = .ok (some (.Exclusive vm))) :
    vm.width = wc.width ∧ vm.height = wc.height
      ∧ vm ∈ m.video_modes
      ∧ ∀ vm' ∈ m.video_modes.filter
          (fun v => v.width == wc.width && v.height == wc.height),
          VideoMode.lt vm vm' = false := by
  rw [computeFullscreen] at h
  simp only [hf, hm, if_true] at h
  cases hmax : rustMaxVideoMode
      (m.video_modes.filter
        (fun vm => vm.width == wc.width && vm.height == wc.height)) with
  | none => rw [hmax] at h; exact absurd h (by simp)
  | some vmax =>
    rw [hmax] at h
    simp only [Except.ok.injEq, Option.some.injEq, Fullscreen.Exclusive.injEq] at h
    subst h
    obtain ⟨hmem, hmaxall⟩ := rustMaxVideoMode_spec hmax
    obtain ⟨hmem', hsz⟩ := List.mem_filter.mp hmem
    simp only [Bool.and_eq_true, beq_iff_eq] at hsz
    exact ⟨hsz.1, hsz.2, hmem', hmaxall⟩

/-! ### Inversion of a successful `Application::new` run -/

theorem Application.new_ok_inv {window_config : WindowConfig}
    {present_mode : PresentMode} {visible_devices : Option (List Nat)}
    {env : VulkanEnv} {app : Application} {tr : List Step}
    (h : Application.new window_config present_mode visible_devices env
      = (.ok app, tr)) :
    ∃ lib inst fs w s devs p qfi queues q0 caps f0 fmtrest ca,
      env.load_library = .ok lib
      ∧ env.create_instance = .ok inst
      ∧ computeFullscreen window_config env = .ok fs
      ∧ env.build_window fs = .ok w
      ∧ env.create_surface = .ok s
      ∧ env.enumerate_physical_devices = .ok devs
      ∧ selectPhysicalDevice visible_devices devs = some (p, qfi)
      ∧ env.create_device p
          { enabled_extensions := requiredDeviceExtensions
            queue_create_infos := [{ queue_family_index := qfi }] } = .ok queues
      ∧ queues.head? = some q0
      ∧ env.surface_capabilities p = .ok caps
      ∧ env.surface_formats p = .ok (f0 :: fmtrest)
      ∧ caps.supported_composite_alpha.head? = some ca
      ∧ env.create_swapchain
          { min_image_count := caps.min_image_count
            image_format := some f0.1
            image_extent := [window_config.width, window_config.height]
            image_usage := ImageUsage.COLOR_ATTACHMENT
            composite_alpha := ca
            present_mode := present_mode } = .ok ()
      ∧ app = { event_loop := env.new_event_loop
                present_mode := present_mode
                window := { config := window_config, window := w }
                «instance» := inst
                surface := s
                device := { physical_device := p
                            enabled_extensions := requiredDeviceExtensions
                            queue_create_infos := [{ queue_family_index := qfi }] }
                swapchain :=
                  { device := { physical_device := p
                                enabled_extensions := requiredDeviceExtensions
                                queue_create_infos :=
                                  [{ queue_family_index := qfi }] }
                    surface := s
                    info := { min_image_count := caps.min_image_count
                              image_format := some f0.1
                              image_extent :=
                                [window_config.width, window_config.height]
                              image_usage := ImageUsage.COLOR_ATTACHMENT
                              composite_alpha := ca
                              present_mode := present_mode } }
                uniform_buffers := []
                depth_buffer := 0
                graphics_pipeline := 0
                swapchain_frame_buffers := []
                command_pool := 0
                command_buffers := 0
                image_available_semaphores := []
                render_finished_semaphores := []
                in_flight_fences := []
                current_frame := 0 }
      ∧ tr = [.createInstance, .createWindow, .createSurface, .createDevice,
              .createSwapchain] := by
  unfold Application.new at h
  cases hlib : env.load_library with
  | error e => simp [hlib] at h
  | ok lib =>
  cases hinst : env.create_instance with
  | error e => simp [hlib, hinst] at h
  | ok inst =>
  cases hfs : computeFullscreen window_config env with
  | error e => simp [hlib, hinst, hfs] at h
  | ok fs =>
  cases hw : env.build_window fs with
  | error e => simp [hlib, hinst, hfs, hw] at h
  | ok w =>
  cases hs : env.create_surface with
  | error e => simp [hlib, hinst, hfs, hw, hs] at h
  | ok s =>
  cases hdevs : env.enumerate_physical_devices with
  | error e => simp [hlib, hinst, hfs, hw, hs, hdevs] at h
  | ok devs =>
  cases hsel : selectPhysicalDevice visible_devices devs with
  | none => simp [hlib, hinst, hfs, hw, hs, hdevs, hsel] at h
  | some pi =>
  obtain ⟨p, qfi⟩ := pi
  cases hdev : env.create_device p
      { enabled_extensions := requiredDeviceExtensions
        queue_create_infos := [{ queue_family_index := qfi }] } with
  | error e => simp [hlib, hinst, hfs, hw, hs, hdevs, hsel, hdev] at h
  | ok queues =>
  cases hq0 : queues.head? with
  | none => simp [hlib, hinst, hfs, hw, hs, hdevs, hsel, hdev, hq0] at h
  | some q0 =>
  cases hcaps : env.surface_capabilities p with
  | error e => simp [hlib, hinst, hfs, hw, hs, hdevs, hsel, hdev, hq0, hcaps] at h
  | ok caps =>
  cases hfmts : env.surface_formats p with
  | error e =>
    simp [hlib, hinst, hfs, hw, hs, hdevs, hsel, hdev, hq0, hcaps, hfmts] at h
  | ok formats =>
  cases formats with
  | nil => simp [hlib, hinst, hfs, hw, hs, hdevs, hsel, hdev, hq0, hcaps, hfmts] at h
  | cons f0 fmtrest =>
  cases hca : caps.supported_composite_alpha.head? with
  | none =>
    simp [hlib, hinst, hfs, hw, hs, hdevs, hsel, hdev, hq0, hcaps, hfmts, hca] at h
  | some ca =>
  cases hsw : env.create_swapchain
      { min_image_count := caps.min_image_count
        image_format := some f0.1
        image_extent := [window_config.width, window_config.height]
        image_usage := ImageUsage.COLOR_ATTACHMENT
        composite_alpha := ca
        present_mode := present_mode } with
  | error e =>
    simp [hlib, hinst, hfs, hw, hs, hdevs, hsel, hdev, hq0, hcaps, hfmts, hca,
      hsw] at h
  | ok u =>
  cases u
  simp only [hlib, hinst, hfs, hw, hs, hdevs, hsel, hdev, hq0, hcaps, hfmts,
    hca, hsw] at h
  rw [Prod.mk.injEq] at h
  obtain ⟨happ, htr⟩ := h
  rw [Except.ok.injEq] at happ
  exact ⟨lib, inst, fs, w, s, devs, p, qfi, queues, q0, caps, f0, fmtrest, ca,
    rfl, rfl, rfl, hw, rfl, rfl, hsel, hdev, hq0, hcaps, hfmts, hca, hsw,
    happ.symm, htr.symm⟩

/-! ### Evaluating the embedding on the concrete fixtures -/

theorem new_envOk :
    Application.new wcOk .Fifo none envOk = (.ok appOk, fullTrace) := rfl

theorem rt_new_envOk :
    RayTracer.new usOk wcOk .Fifo none envOk
      = (.ok { application := appOk, _user_settings := usOk }, fullTrace) := rfl

/-! ## Claim theorems -/

/-- C8: `requires_accumulation_reset(a, b)` is true iff at least one of
the six fields `is_ray_traced`, `accumulate_rays`, `number_of_bounces`,
`field_of_view`, `aperture`, `focus_distance` differs between `a` and `b`
(with the language's inequality on each field type), and the result never
depends on any of the remaining fields. -/
theorem c8_requires_accumulation_reset (a b : UserSettings) :
    (UserSettings.requires_accumulation_reset a b = true
      ↔ (a.is_ray_traced ≠ b.is_ray_traced
          ∨ a.accumulate_rays ≠ b.accumulate_rays
          ∨ a.number_of_bounces ≠ b.number_of_bounces
          ∨ F32.ne a.field_of_view b.field_of_view = true
          ∨ F32.ne a.aperture b.aperture = true
          ∨ F32.ne a.focus_distance b.focus_distance = true))
    ∧ ∀ ns1 mx1 bm1 si1 sh1 hs1 ss1 so1 ns2 mx2 bm2 si2 sh2 hs2 ss2 so2,
        UserSettings.requires_accumulation_reset
          { a with
            number_of_samples := ns1
            max_number_of_samples := mx1
            benchmark := bm1
            scene_index := si1
            show_heatmap := sh1
            heatmap_scale := hs1
            show_settings := ss1
            show_overlay := so1 }
          { b with
            number_of_samples := ns2
            max_number_of_samples := mx2
            benchmark := bm2
            scene_index := si2
            show_heatmap := sh2
            heatmap_scale := hs2
            show_settings := ss2
            show_overlay := so2 }
          = UserSettings.requires_accumulation_reset a b := by
  constructor
  · simp only [UserSettings.requires_accumulation_reset, Bool.or_eq_true,
      bne_iff_ne, ne_eq]
    tauto
  · intro ns1 mx1 bm1 si1 sh1 hs1 ss1 so1 ns2 mx2 bm2 si2 sh2 hs2 ss2 so2
    rfl

/-- C9: `UserSettings::from(&Options)` sets `is_ray_traced`,
`accumulate_rays` and `show_overlay` to true, `show_heatmap` to false,
`show_settings` to the negation of `benchmark`, `heatmap_scale` to 1.5,
copies the benchmark/sampling/scene fields, zeroes `field_of_view`,
`aperture` and `focus_distance` — and the produced `field_of_view` lies
strictly below `FOV_MIN = 10.0`. -/
theorem c9_from_options (opts : Options) :
    (UserSettings.fromOptions opts).is_ray_traced = true
    ∧ (UserSettings.fromOptions opts).accumulate_rays = true
    ∧ (UserSettings.fromOptions opts).show_overlay = true
    ∧ (UserSettings.fromOptions opts).show_heatmap = false
    ∧ (UserSettings.fromOptions opts).show_settings = !opts.benchmark
    ∧ (UserSettings.fromOptions opts).heatmap_scale = .finite false (3 / 2)
    ∧ (UserSettings.fromOptions opts).benchmark = opts.benchmark
    ∧ (UserSettings.fromOptions opts).benchmark_next_scenes
        = opts.benchmark_next_scenes
    ∧ (UserSettings.fromOptions opts).benchmark_max_time = opts.benchmark_max_time
    ∧ (UserSettings.fromOptions opts).number_of_samples = opts.samples
    ∧ (UserSettings.fromOptions opts).number_of_bounces = opts.bounces
    ∧ (UserSettings.fromOptions opts).max_number_of_samples = opts.max_samples
    ∧ (UserSettings.fromOptions opts).scene_index = opts.scene_index
    ∧ (UserSettings.fromOptions opts).field_of_view = F32.zero
    ∧ (UserSettings.fromOptions opts).aperture = F32.zero
    ∧ (UserSettings.fromOptions opts).focus_distance = F32.zero
    ∧ UserSettings.FOV_MIN = F32.finite false 10
    ∧ F32.lt (UserSettings.fromOptions opts).field_of_view UserSettings.FOV_MIN
        = true := by
  refine ⟨rfl, rfl, rfl, rfl, rfl, rfl, rfl, rfl, rfl, rfl, rfl, rfl, rfl,
    rfl, rfl, rfl, rfl, ?_⟩
  show F32.lt F32.zero UserSettings.FOV_MIN = true
  decide

/-- C10: the present-mode match in `main` maps 0/1/2/3 to
Immediate/Mailbox/Fifo/FifoRelaxed and panics (modelled as `none`) for
every other value; for `present_mode ≤ 3` the panic is unreachable, and
the default options (`present_mode = 2`) select `Fifo`. -/
theorem c10_present_mode_match :
    (mainPresentMode 0 = some .Immediate
      ∧ mainPresentMode 1 = some .Mailbox
      ∧ mainPresentMode 2 = some .Fifo
      ∧ mainPresentMode 3 = some .FifoRelaxed)
    ∧ (∀ n, 3 < n → mainPresentMode n = none)
    ∧ (∀ n, n ≤ 3 → (mainPresentMode n).isSome = true)
    ∧ Options.default.present_mode = 2
    ∧ mainPresentMode Options.default.present_mode = some .Fifo := by
  refine ⟨⟨rfl, rfl, rfl, rfl⟩, ?_, ?_, rfl, rfl⟩
  · intro n hn
    rcases n with _ | _ | _ | _ | n
    · omega
    · omega
    · omega
    · omega
    · rfl
  · intro n hn
    rcases n with _ | _ | _ | _ | n
    · rfl
    · rfl
    · rfl
    · rfl
    · omega

/-- Witness for C10: the hypotheses of the universally quantified parts
hold at 4 and 2 respectively. -/
theorem c10_present_mode_match_witness :
    mainPresentMode 4 = none ∧ (mainPresentMode 2).isSome = true :=
  ⟨c10_present_mode_match.2.1 4 (by omega),
    c10_present_mode_match.2.2.1 2 (by omega)⟩

/-- C4: the event-loop closure sets the control flow to `Exit` exactly
for a window `CloseRequested` event or a window `KeyboardInput` event
whose virtual keycode is `Some(Escape)`; every other event leaves the
control flow unchanged (and the closure performs no other action — it is
a pure function of the event and the current flow in this model). -/
theorem c4_event_loop_exit (e : Event) (cf : ControlFlow) :
    ((e = .WindowEvent .CloseRequested
        ∨ ∃ input, e = .WindowEvent (.KeyboardInput input)
            ∧ input.virtual_keycode = some .Escape) →
      Application.handleEvent e cf = .Exit)
    ∧ (¬ (e = .WindowEvent .CloseRequested
        ∨ ∃ input, e = .WindowEvent (.KeyboardInput input)
            ∧ input.virtual_keycode = some .Escape) →
      Application.handleEvent e cf = cf) := by
  constructor
  · rintro (rfl | ⟨input, rfl, hk⟩)
    · rfl
    · simp [Application.handleEvent, hk]
  · intro hne
    cases e with
    | OtherEvent t => rfl
    | WindowEvent we =>
      cases we with
      | CloseRequested => exact absurd (Or.inl rfl) hne
      | OtherWindowEvent t => rfl
      | KeyboardInput input =>
        cases hk : input.virtual_keycode with
        | none => simp [Application.handleEvent, hk]
        | some k =>
          cases k with
          | Escape => exact absurd (Or.inr ⟨input, rfl, hk⟩) hne
          | OtherKey c => simp [Application.handleEvent, hk]

/-- Witness for C4: a close request exits; an unrelated event leaves the
flow alone. -/
theorem c4_event_loop_exit_witness :
    Application.handleEvent (.WindowEvent .CloseRequested) .Poll = .Exit
      ∧ Application.handleEvent (.OtherEvent 0) .Wait = .Wait :=
  ⟨(c4_event_loop_exit (.WindowEvent .CloseRequested) .Poll).1 (Or.inl rfl),
    (c4_event_loop_exit (.OtherEvent 0) .Wait).2 (by simp)⟩

/-- C7: `RayTracer::new` fails exactly when `Application::new` fails, with
the same error value (the `?` operator); on success it stores the created
application and the user settings unchanged.  (No `RayTracer` value exists
on the error path: the embedding returns only the propagated error.) -/
theorem c7_raytracer_new (us : UserSettings) (wc : WindowConfig)
    (pm : PresentMode) (vd : Option (List Nat)) (env : VulkanEnv) :
    (∀ e, (RayTracer.new us wc pm vd env).1 = .error e
        ↔ (Application.new wc pm vd env).1 = .error e)
    ∧ (RayTracer.new us wc pm vd env).2 = (Application.new wc pm vd env).2
    ∧ (∀ rt tr, RayTracer.new us wc pm vd env = (.ok rt, tr) →
        Application.new wc pm vd env = (.ok rt.application, tr)
          ∧ rt._user_settings = us) := by
  unfold RayTracer.new
  rcases hA : Application.new wc pm vd env with ⟨res, tr'⟩
  cases res with
  | error e' =>
    refine ⟨fun e => ?_, ?_, fun rt tr h => ?_⟩
    · simp
    · simp
    · simp at h
  | ok app =>
    refine ⟨fun e => ?_, ?_, fun rt tr h => ?_⟩
    · simp
    · simp
    · have h' : ((.ok { application := app, _user_settings := us }
          : Except NewError RayTracer), tr') = (.ok rt, tr) := h
      rw [Prod.mk.injEq, Except.ok.injEq] at h'
      obtain ⟨hrt, htr⟩ := h'
      subst htr
      subst hrt
      exact ⟨rfl, rfl⟩

/-- Witness for C7: the success path at the concrete environment. -/
theorem c7_raytracer_new_witness :
    Application.new wcOk .Fifo none envOk
        = (.ok ({ application := appOk, _user_settings := usOk }
            : RayTracer).application, fullTrace)
      ∧ ({ application := appOk, _user_settings := usOk }
          : RayTracer)._user_settings = usOk :=
  (c7_raytracer_new usOk wcOk .Fifo none envOk).2.2
    { application := appOk, _user_settings := usOk } fullTrace rt_new_envOk

/-- C5: every placeholder field of a successfully constructed
`Application` holds its default value: the five `Vec` fields are empty and
the five `usize` fields are 0. -/
theorem c5_placeholder_defaults (wc : WindowConfig) (pm : PresentMode)
    (vd : Option (List Nat)) (env : VulkanEnv) (app : Application)
    (tr : List Step)
    (h : Application.new wc pm vd env = (.ok app, tr)) :
    app.uniform_buffers = [] ∧ app.swapchain_frame_buffers = []
      ∧ app.image_available_semaphores = []
      ∧ app.render_finished_semaphores = []
      ∧ app.in_flight_fences = []
      ∧ app.depth_buffer = 0 ∧ app.graphics_pipeline = 0
      ∧ app.command_pool = 0 ∧ app.command_buffers = 0
      ∧ app.current_frame = 0 := by
  obtain ⟨_, _, _, _, _, _, _, _, _, _, _, _, _, _, _, _, _, _, _, _, _, _,
    _, _, _, _, _, happ, _⟩ := Application.new_ok_inv h
  subst happ
  exact ⟨rfl, rfl, rfl, rfl, rfl, rfl, rfl, rfl, rfl, rfl⟩

/-- Witness for C5: the successful concrete run has default placeholders. -/
theorem c5_placeholder_defaults_witness :
    appOk.uniform_buffers = [] ∧ appOk.swapchain_frame_buffers = []
      ∧ appOk.image_available_semaphores = []
      ∧ appOk.render_finished_semaphores = []
      ∧ appOk.in_flight_fences = []
      ∧ appOk.depth_buffer = 0 ∧ appOk.graphics_pipeline = 0
      ∧ appOk.command_pool = 0 ∧ appOk.command_buffers = 0
      ∧ appOk.current_frame = 0 :=
  c5_placeholder_defaults wcOk .Fifo none envOk appOk fullTrace new_envOk

/-- C2: a successful `Application::new` run has created the instance,
window, surface, device and swapchain — in that order, witnessed by the
trace — and the returned `Application` stores exactly those created
objects, with `present_mode` equal to the argument and `window.config`
equal to the `window_config` argument. -/
theorem c2_construction_order (wc : WindowConfig) (pm : PresentMode)
    (vd : Option (List Nat)) (env : VulkanEnv) (app : Application)
    (tr : List Step)
    (h : Application.new wc pm vd env = (.ok app, tr)) :
    tr = [.createInstance, .createWindow, .createSurface, .createDevice,
          .createSwapchain]
      ∧ env.create_instance = .ok app.«instance»
      ∧ (∃ fs, computeFullscreen wc env = .ok fs
          ∧ env.build_window fs = .ok app.window.window)
      ∧ env.create_surface = .ok app.surface
      ∧ (∃ devs qfi, env.enumerate_physical_devices = .ok devs
          ∧ selectPhysicalDevice vd devs = some (app.device.physical_device, qfi)
          ∧ app.device.enabled_extensions = requiredDeviceExtensions
          ∧ app.device.queue_create_infos = [{ queue_family_index := qfi }])
      ∧ app.swapchain.device = app.device
      ∧ app.swapchain.surface = app.surface
      ∧ env.create_swapchain app.swapchain.info = .ok ()
      ∧ app.present_mode = pm
      ∧ app.window.config = wc
      ∧ app.event_loop = env.new_event_loop := by
  obtain ⟨lib, inst, fs, w, s, devs, p, qfi, queues, q0, caps, f0, rest, ca,
    hlib, hinst, hfs, hw, hs, hdevs, hsel, hdev, hq0, hcaps, hfmts, hca, hsw,
    happ, htr⟩ := Application.new_ok_inv h
  subst happ
  subst htr
  exact ⟨rfl, hinst, ⟨fs, hfs, hw⟩, hs, ⟨devs, qfi, hdevs, hsel, rfl, rfl⟩,
    rfl, rfl, hsw, rfl, rfl, rfl⟩

/-- Witness for C2: the concrete successful run stores the created
instance and the requested present mode. -/
theorem c2_construction_order_witness :
    envOk.create_instance = .ok appOk.«instance»
      ∧ appOk.present_mode = .Fifo :=
  ⟨(c2_construction_order wcOk .Fifo none envOk appOk fullTrace new_envOk).2.1,
    (c2_construction_order wcOk .Fifo none envOk appOk fullTrace
      new_envOk).2.2.2.2.2.2.2.2.1⟩

/-- C3: the swapchain is created with `min_image_count` from the surface
capabilities, the first surface format, the configured window extent,
`COLOR_ATTACHMENT` usage, the first supported composite alpha (with
`NoSupportedCompositeAlphasError` when there is none), and the requested
present mode. -/
theorem c3_swapchain_parameters (wc : WindowConfig) (pm : PresentMode)
    (vd : Option (List Nat)) (env : VulkanEnv) :
    (∀ app tr, Application.new wc pm vd env = (.ok app, tr) →
      ∃ caps f0 rest ca,
        env.surface_capabilities app.device.physical_device = .ok caps
        ∧ env.surface_formats app.device.physical_device = .ok (f0 :: rest)
        ∧ caps.supported_composite_alpha.head? = some ca
        ∧ app.swapchain.info
            = { min_image_count := caps.min_image_count
                image_format := some f0.1
                image_extent := [wc.width, wc.height]
                image_usage := ImageUsage.COLOR_ATTACHMENT
                composite_alpha := ca
                present_mode := pm })
    ∧ (∀ lib inst fs w s devs p qfi queues q0 caps f0 rest,
        env.load_library = .ok lib →
        env.create_instance = .ok inst →
        computeFullscreen wc env = .ok fs →
        env.build_window fs = .ok w →
        env.create_surface = .ok s →
        env.enumerate_physical_devices = .ok devs →
        selectPhysicalDevice vd devs = some (p, qfi) →
        env.create_device p
          { enabled_extensions := requiredDeviceExtensions
            queue_create_infos := [{ queue_family_index := qfi }] }
          = .ok queues →
        queues.head? = some q0 →
        env.surface_capabilities p = .ok caps →
        env.surface_formats p = .ok (f0 :: rest) →
        caps.supported_composite_alpha = [] →
        (Application.new wc pm vd env).1
          = .error (.appError .NoSupportedCompositeAlphasError)) := by
  constructor
  · intro app tr h
    obtain ⟨lib, inst, fs, w, s, devs, p, qfi, queues, q0, caps, f0, rest, ca,
      hlib, hinst, hfs, hw, hs, hdevs, hsel, hdev, hq0, hcaps, hfmts, hca, hsw,
      happ, htr⟩ := Application.new_ok_inv h
    subst happ
    exact ⟨caps, f0, rest, ca, hcaps, hfmts, hca, rfl⟩
  · intro lib inst fs w s devs p qfi queues q0 caps f0 rest hlib hinst hfs hw
      hs hdevs hsel hdev hq0 hcaps hfmts hca
    unfold Application.new
    simp [hlib, hinst, hfs, hw, hs, hdevs, hsel, hdev, hq0, hcaps, hfmts, hca]

/-- Witness for C3: the concrete run uses the fixture's parameters, and an
environment whose surface supports no composite alpha yields the error. -/
theorem c3_swapchain_parameters_witness :
    appOk.swapchain.info.present_mode = .Fifo
      ∧ (Application.new wcOk .Fifo none envNoAlpha).1
          = .error (.appError .NoSupportedCompositeAlphasError) := by
  constructor
  · obtain ⟨caps, f0, rest, ca, _, _, _, hinfo⟩ :=
      (c3_swapchain_parameters wcOk .Fifo none envOk).1 appOk fullTrace
        new_envOk
    rw [hinfo]
  · exact (c3_swapchain_parameters wcOk .Fifo none envNoAlpha).2
      { id := 0 } { id := 0 } none { id := 0 } { id := 0 } [pdOk] pdOk 0
      [{ id := 0 }] { id := 0 }
      { min_image_count := 2, supported_composite_alpha := [] }
      ({ id := 7 }, { id := 0 }) []
      rfl rfl rfl rfl rfl rfl rfl rfl rfl rfl rfl rfl

/-- C1: once the run reaches device selection, `Application::new` returns
`Err(NoPhysicalDevicesError)` exactly when no enumerated device is
eligible (supports the four required extensions, reports
`max_geometry_count > 0`, has its id in `visible_devices` whenever that is
`Some`, and has a GRAPHICS queue family supporting the surface), and a
successful run's device is an eligible one minimising the
DiscreteGpu < IntegratedGpu < VirtualGpu < Cpu < Other < unknown rank. -/
theorem c1_device_selection (wc : WindowConfig) (pm : PresentMode)
    (vd : Option (List Nat)) (env : VulkanEnv) (lib : VulkanLibrary)
    (inst : Instance) (fs : Option Fullscreen) (w : WinitWindow) (s : Surface)
    (devs : List PhysicalDevice)
    (hlib : env.load_library = .ok lib)
    (hinst : env.create_instance = .ok inst)
    (hfs : computeFullscreen wc env = .ok fs)
    (hw : env.build_window fs = .ok w)
    (hs : env.create_surface = .ok s)
    (hdevs : env.enumerate_physical_devices = .ok devs) :
    ((Application.new wc pm vd env).1
        = .error (.appError .NoPhysicalDevicesError)
      ↔ ∀ p ∈ devs, ¬ eligibleSpec vd p)
    ∧ (∀ app tr, Application.new wc pm vd env = (.ok app, tr) →
        app.device.physical_device ∈ devs
          ∧ eligibleSpec vd app.device.physical_device
          ∧ ∀ q ∈ devs, eligibleSpec vd q →
              deviceRank app.device.physical_device.device_type
                ≤ deviceRank q.device_type) := by
  constructor
  · cases hsel : selectPhysicalDevice vd devs with
    | none =>
      have hres : (Application.new wc pm vd env).1
          = .error (.appError .NoPhysicalDevicesError) := by
        unfold Application.new
        simp [hlib, hinst, hfs, hw, hs, hdevs, hsel]
      exact iff_of_true hres ((selectPhysicalDevice_eq_none_iff vd devs).mp hsel)
    | some pi =>
      obtain ⟨p, qfi⟩ := pi
      obtain ⟨hpmem, hpel, _, _⟩ := selectPhysicalDevice_spec hsel
      have hne : (Application.new wc pm vd env).1
          ≠ .error (.appError .NoPhysicalDevicesError) := by
        unfold Application.new
        simp only [hlib, hinst, hfs, hw, hs, hdevs, hsel]
        repeat' split
        all_goals simp
      exact iff_of_false hne (fun hall => hall p hpmem hpel)
  · intro app tr h
    obtain ⟨lib', inst', fs', w', s', devs', p, qfi, queues, q0, caps, f0, rest,
      ca, _, _, _, _, _, hdevs', hsel, _, _, _, _, _, _, happ, _⟩ :=
      Application.new_ok_inv h
    rw [hdevs] at hdevs'
    injection hdevs' with hdd
    subst hdd
    obtain ⟨hpmem, hpel, _, hmin⟩ := selectPhysicalDevice_spec hsel
    subst happ
    exact ⟨hpmem, hpel, hmin⟩

/-- Witness for C1: in the concrete environment with one fully capable
device, the `NoPhysicalDevicesError` characterisation holds. -/
theorem c1_device_selection_witness :
    (Application.new wcOk .Fifo none envOk).1
        = .error (.appError .NoPhysicalDevicesError)
      ↔ ∀ p ∈ [pdOk], ¬ eligibleSpec none p :=
  (c1_device_selection wcOk .Fifo none envOk { id := 0 } { id := 0 } none
    { id := 0 } { id := 0 } [pdOk] rfl rfl rfl rfl rfl rfl).1

/-- C6: `NoPrimaryMonitorError` / `NoVideoModeError` can only arise with
`fullscreen` set, in which case a missing primary monitor gives the first
error and the absence of a video mode whose size equals exactly the
configured size gives the second (the maximum matching mode is chosen);
without `fullscreen` the monitor is never consulted and neither error is
returned. -/
theorem c6_fullscreen_errors (wc : WindowConfig) (pm : PresentMode)
    (vd : Option (List Nat)) (env : VulkanEnv) :
    (wc.fullscreen = false →
      ((Application.new wc pm vd env).1
          ≠ .error (.appError .NoPrimaryMonitorError)
        ∧ (Application.new wc pm vd env).1
            ≠ .error (.appError .NoVideoModeError))
      ∧ ∀ m, Application.new wc pm vd { env with primary_monitor := m }
          = Application.new wc pm vd env)
    ∧ (wc.fullscreen = true →
        ∀ lib inst, env.load_library = .ok lib →
          env.create_instance = .ok inst →
          (env.primary_monitor = none →
            (Application.new wc pm vd env).1
              = .error (.appError .NoPrimaryMonitorError))
          ∧ (∀ m, env.primary_monitor = some m →
              m.video_modes.filter
                (fun vm => vm.width == wc.width && vm.height == wc.height)
                = [] →
              (Application.new wc pm vd env).1
                = .error (.appError .NoVideoModeError))
          ∧ (∀ m vm, env.primary_monitor = some m →
              computeFullscreen wc env = .ok (some (.Exclusive vm)) →
              vm.width = wc.width ∧ vm.height = wc.height
                ∧ vm ∈ m.video_modes
                ∧ ∀ vm' ∈ m.video_modes.filter
                    (fun v => v.width == wc.width && v.height == wc.height),
                    VideoMode.lt vm vm' = false)) := by
  constructor
  · intro hf
    have hcf : computeFullscreen wc env = .ok none :=
      computeFullscreen_of_not_fullscreen hf
    constructor
    · refine ⟨?_, ?_⟩ <;>
        (intro h
         unfold Application.new at h
         repeat' (first | split at h | dsimp only at h)
         all_goals simp_all)
    · intro m
      have hcf1 : computeFullscreen wc { env with primary_monitor := m }
          = .ok none := computeFullscreen_of_not_fullscreen hf
      unfold Application.new
      dsimp only
      rw [hcf1, hcf]
  · intro hf lib inst hlib hinst
    refine ⟨?_, ?_, ?_⟩
    · intro hm
      unfold Application.new
      simp [hlib, hinst, computeFullscreen_no_monitor hf hm]
    · intro m hm hempty
      unfold Application.new
      simp [hlib, hinst, computeFullscreen_no_video_mode hf hm hempty]
    · intro m vm hm hok
      exact computeFullscreen_ok_fullscreen hf hm hok

/-- Witness for C6: the windowed concrete run cannot produce the monitor
errors, and the fullscreen run with no primary monitor produces
`NoPrimaryMonitorError`. -/
theorem c6_fullscreen_errors_witness :
    (Application.new wcOk .Fifo none envOk).1
        ≠ .error (.appError .NoPrimaryMonitorError)
      ∧ (Application.new wcFs .Fifo none envOk).1
          = .error (.appError .NoPrimaryMonitorError) :=
  ⟨((c6_fullscreen_errors wcOk .Fifo none envOk).1 rfl).1.1,
    ((c6_fullscreen_errors wcFs .Fifo none envOk).2 rfl { id := 0 } { id := 0 }
      rfl rfl).1 rfl⟩

end RTVk
